import Mathlib

/-!
Shallow embedding of the OwnPay payment-gateway core, translated from the
TypeScript source:

* `server/webhooks.ts` — the signed-webhook dispatcher `sendSignedWebhook`
  with its retry loop and exponential backoff;
* the route layer (`registerRoutes`): the `/api/v2/orders` creation endpoint
  and the `/api/process-payment` handler with its v2 webhook block;
* `server/storage.ts` — the in-memory store, modelled as explicit state;
* `shared/schema.ts` — the request/record shapes.

External platform facilities are modelled as parameters: the HMAC-SHA256
primitive (`crypto.createHmac`) as a function `String → String → String`,
the network (`fetch`) as a responder `Nat → Option Nat` giving the HTTP
status of each attempt (`none` = thrown transport error), `Math.random`
jitter as a stream `Nat → Nat`, and the WHATWG `URL` constructor as a
partial parse function `String → Option UrlParts`.
-/

namespace OwnPay

/-! ## Webhook dispatcher (server/webhooks.ts) -/

/-- Result of `sendSignedWebhook`: `{ success, status }`. -/
structure DeliveryResult where
  success : Bool
  status : Nat
deriving DecidableEq, Repr

/-- `computeSignature` from webhooks.ts:
`sha256=` followed by the hex HMAC-SHA256 of the payload under the secret.
The HMAC primitive itself (`crypto.createHmac("sha256", secret)…digest("hex")`)
is platform code, passed in as `hmacHex`. -/
def computeSignature (hmacHex : String → String → String)
    (secret payload : String) : String :=
  "sha256=" ++ hmacHex secret payload

/-- The `WebhookOptions` interface from webhooks.ts. `maxRetries`,
`idempotencyKey` are optional; `testMode` has JS-falsy default `false`. -/
structure WebhookOptions where
  url : String
  body : String
  secret : String
  maxRetries : Option Nat
  idempotencyKey : Option String
  testMode : Bool
deriving DecidableEq, Repr

/-- One delivery attempt's outgoing headers, as built inside the loop of
`sendSignedWebhook`. -/
structure AttemptRec where
  retryCount : Nat
  signature : String
  timestamp : String
  idempotencyKey : Option String
  testMode : Bool
deriving DecidableEq, Repr

/-- Full observable trace of one dispatch: the attempts performed (in
order), the backoff delays slept (in order), and the returned result. -/
structure DispatchTrace where
  attempts : List AttemptRec
  delays : List Nat
  result : DeliveryResult
deriving DecidableEq, Repr

/-- `res.ok` of the fetch API: status in the inclusive range 200–299. -/
def respOk (code : Nat) : Bool :=
  decide (200 ≤ code ∧ code < 300)

/-- Whether one attempt outcome counts as accepted: a response with a 2xx
status. A transport error (`none`, the `catch` branch) is never accepted. -/
def respAccepted : Option Nat → Bool
  | some code => respOk code
  | none => false

/-- The backoff computation of webhooks.ts, lines 52–53 and 57–58:
`delay = Math.min(30000, baseDelay * 2 ** attempt + jitter)` with
`baseDelay = 1000`, evaluated after `attempt++`. -/
def backoffDelay (attempt jitter : Nat) : Nat :=
  min 30000 (1000 * 2 ^ attempt + jitter)

/-- The `while (attempt <= maxRetries)` loop of `sendSignedWebhook`.
`fuel` is the standard bound for embedding the while loop; the caller
passes `maxRetries + 1`, which the guard `attempt ≤ maxRetries` makes
exact (the guard fails exactly when the fuel would run out, so the fuel
never truncates the loop). `responder i` is the network outcome of the
request issued with `X-Gateway-Retry-Count = i`; `jitter i` is the value
of `Math.floor(Math.random() * 300)` drawn after that attempt fails. -/
def sendLoop (responder : Nat → Option Nat) (jitter : Nat → Nat)
    (sig ts : String) (idem : Option String) (tm : Bool)
    (maxRetries : Nat) : Nat → Nat → DispatchTrace
  | 0, _ => ⟨[], [], ⟨false, 0⟩⟩
  | fuel + 1, attempt =>
    if attempt ≤ maxRetries then
      let rcd : AttemptRec := ⟨attempt, sig, ts, idem, tm⟩
      match responder attempt with
      | some code =>
        if respOk code then
          ⟨[rcd], [], ⟨true, code⟩⟩
        else
          let d := backoffDelay (attempt + 1) (jitter attempt)
          let t := sendLoop responder jitter sig ts idem tm maxRetries fuel (attempt + 1)
          ⟨rcd :: t.attempts, d :: t.delays, t.result⟩
      | none =>
        let d := backoffDelay (attempt + 1) (jitter attempt)
        let t := sendLoop responder jitter sig ts idem tm maxRetries fuel (attempt + 1)
        ⟨rcd :: t.attempts, d :: t.delays, t.result⟩
    else ⟨[], [], ⟨false, 0⟩⟩

/-- `sendSignedWebhook` from webhooks.ts. `maxRetries = opts.maxRetries ?? 5`;
the timestamp (`Math.floor(Date.now() / 1000).toString()`, here from the
parameter `nowSec`) and the signature are computed once, before the loop. -/
def sendSignedWebhook (hmacHex : String → String → String) (nowSec : Nat)
    (responder : Nat → Option Nat) (jitter : Nat → Nat)
    (opts : WebhookOptions) : DispatchTrace :=
  let maxRetries := opts.maxRetries.getD 5
  sendLoop responder jitter (computeSignature hmacHex opts.secret opts.body)
    (toString nowSec) opts.idempotencyKey opts.testMode maxRetries
    (maxRetries + 1) 0

/-! ### Loop lemmas -/

theorem sendLoop_attempts_le (R : Nat → Option Nat) (J : Nat → Nat)
    (sig ts : String) (idem : Option String) (tm : Bool) (m : Nat) :
    ∀ fuel a, (sendLoop R J sig ts idem tm m fuel a).attempts.length ≤ fuel := by
  intro fuel
  induction fuel with
  | zero => intro a; simp [sendLoop]
  | succ n ih =>
    intro a
    simp only [sendLoop]
    split
    · cases hR : R a with
      | some code =>
        simp only [hR]
        split
        · simp
        · have := ih (a + 1)
          simp only [List.length_cons]
          omega
      | none =>
        simp only [hR, List.length_cons]
        have := ih (a + 1)
        omega
    · simp

theorem sendLoop_delays_le (R : Nat → Option Nat) (J : Nat → Nat)
    (sig ts : String) (idem : Option String) (tm : Bool) (m : Nat) :
    ∀ fuel a, (sendLoop R J sig ts idem tm m fuel a).delays.length ≤ fuel := by
  intro fuel
  induction fuel with
  | zero => intro a; simp [sendLoop]
  | succ n ih =>
    intro a
    simp only [sendLoop]
    split
    · cases hR : R a with
      | some code =>
        simp only [hR]
        split
        · simp
        · have := ih (a + 1)
          simp only [List.length_cons]
          omega
      | none =>
        simp only [hR, List.length_cons]
        have := ih (a + 1)
        omega
    · simp

theorem sendLoop_allFail (R : Nat → Option Nat) (J : Nat → Nat)
    (sig ts : String) (idem : Option String) (tm : Bool) (m : Nat)
    (hR : ∀ i, respAccepted (R i) = false) :
    ∀ fuel a, (sendLoop R J sig ts idem tm m fuel a).attempts.length = min fuel (m + 1 - a) ∧
      (sendLoop R J sig ts idem tm m fuel a).result = ⟨false, 0⟩ := by
  intro fuel
  induction fuel with
  | zero => intro a; simp [sendLoop]
  | succ n ih =>
    intro a
    simp only [sendLoop]
    split
    · rename_i ha
      cases hRa : R a with
      | some code =>
        have hacc := hR a
        rw [hRa] at hacc
        simp only [respAccepted] at hacc
        simp only [hRa]
        rw [if_neg (by simp [hacc])]
        have := ih (a + 1)
        refine ⟨?_, this.2⟩
        simp only [List.length_cons, this.1]
        omega
      | none =>
        simp only [hRa]
        have := ih (a + 1)
        refine ⟨?_, this.2⟩
        simp only [List.length_cons, this.1]
        omega
    · rename_i ha
      constructor
      · simp only [List.length_nil]
        omega
      · rfl

theorem sendLoop_first_accepted (R : Nat → Option Nat) (J : Nat → Nat)
    (sig ts : String) (idem : Option String) (tm : Bool) (m : Nat)
    (fuel a : Nat) (hfuel : 0 < fuel) (ha : a ≤ m)
    (hacc : respAccepted (R a) = true) :
    ∃ code, R a = some code ∧
      sendLoop R J sig ts idem tm m fuel a =
        ⟨[⟨a, sig, ts, idem, tm⟩], [], ⟨true, code⟩⟩ := by
  obtain ⟨n, rfl⟩ : ∃ n, fuel = n + 1 := ⟨fuel - 1, by omega⟩
  cases hRa : R a with
  | none => rw [hRa] at hacc; simp [respAccepted] at hacc
  | some code =>
    refine ⟨code, rfl, ?_⟩
    rw [hRa] at hacc
    simp only [respAccepted] at hacc
    simp [sendLoop, ha, hRa, hacc]

theorem sendLoop_attempts_get? (R : Nat → Option Nat) (J : Nat → Nat)
    (sig ts : String) (idem : Option String) (tm : Bool) (m : Nat) :
    ∀ fuel a k, k < (sendLoop R J sig ts idem tm m fuel a).attempts.length →
      (sendLoop R J sig ts idem tm m fuel a).attempts.get? k =
        some ⟨a + k, sig, ts, idem, tm⟩ := by
  intro fuel
  induction fuel with
  | zero => intro a k hk; simp [sendLoop] at hk
  | succ n ih =>
    intro a k hk
    simp only [sendLoop] at hk ⊢
    by_cases ha : a ≤ m
    · simp only [if_pos ha] at hk ⊢
      cases hRa : R a with
      | some code =>
        simp only [hRa] at hk ⊢
        by_cases hok : respOk code
        · simp only [if_pos hok] at hk ⊢
          simp only [List.length_singleton] at hk
          interval_cases k
          simp
        · simp only [if_neg hok] at hk ⊢
          cases k with
          | zero => simp
          | succ j =>
            simp only [List.length_cons] at hk
            simp only [List.get?_cons_succ]
            have := ih (a + 1) j (by omega)
            rw [this]
            congr 2
            omega
      | none =>
        simp only [hRa] at hk ⊢
        cases k with
        | zero => simp
        | succ j =>
          simp only [List.length_cons] at hk
          simp only [List.get?_cons_succ]
          have := ih (a + 1) j (by omega)
          rw [this]
          congr 2
          omega
    · simp only [if_neg ha] at hk
      simp at hk

theorem sendLoop_delays_get? (R : Nat → Option Nat) (J : Nat → Nat)
    (sig ts : String) (idem : Option String) (tm : Bool) (m : Nat) :
    ∀ fuel a k, k < (sendLoop R J sig ts idem tm m fuel a).delays.length →
      (sendLoop R J sig ts idem tm m fuel a).delays.get? k =
        some (backoffDelay (a + k + 1) (J (a + k))) := by
  intro fuel
  induction fuel with
  | zero => intro a k hk; simp [sendLoop] at hk
  | succ n ih =>
    intro a k hk
    simp only [sendLoop] at hk ⊢
    by_cases ha : a ≤ m
    · simp only [if_pos ha] at hk ⊢
      cases hRa : R a with
      | some code =>
        simp only [hRa] at hk ⊢
        by_cases hok : respOk code
        · simp only [if_pos hok] at hk
          simp at hk
        · simp only [if_neg hok] at hk ⊢
          cases k with
          | zero => simp
          | succ j =>
            simp only [List.length_cons] at hk
            simp only [List.get?_cons_succ]
            have := ih (a + 1) j (by omega)
            rw [this]
            congr 2
            · omega
            · congr 1
              omega
      | none =>
        simp only [hRa] at hk ⊢
        cases k with
        | zero => simp
        | succ j =>
          simp only [List.length_cons] at hk
          simp only [List.get?_cons_succ]
          have := ih (a + 1) j (by omega)
          rw [this]
          congr 2
          · omega
          · congr 1
            omega
    · simp only [if_neg ha] at hk
      simp at hk

theorem sendLoop_result_status (R : Nat → Option Nat) (J : Nat → Nat)
    (sig ts : String) (idem : Option String) (tm : Bool) (m : Nat) :
    ∀ fuel a, (sendLoop R J sig ts idem tm m fuel a).result.success = false →
      (sendLoop R J sig ts idem tm m fuel a).result.status = 0 := by
  intro fuel
  induction fuel with
  | zero => intro a _; simp [sendLoop]
  | succ n ih =>
    intro a h
    simp only [sendLoop] at h ⊢
    by_cases ha : a ≤ m
    · simp only [if_pos ha] at h ⊢
      cases hRa : R a with
      | some code =>
        simp only [hRa] at h ⊢
        by_cases hok : respOk code
        · simp only [if_pos hok] at h
          simp at h
        · simp only [if_neg hok] at h ⊢
          exact ih (a + 1) h
      | none =>
        simp only [hRa] at h ⊢
        exact ih (a + 1) h
    · simp only [if_neg ha]

theorem sendLoop_delay_count (R : Nat → Option Nat) (J : Nat → Nat)
    (sig ts : String) (idem : Option String) (tm : Bool) (m : Nat) :
    ∀ fuel a,
      ((sendLoop R J sig ts idem tm m fuel a).result.success = true →
        (sendLoop R J sig ts idem tm m fuel a).delays.length + 1 =
          (sendLoop R J sig ts idem tm m fuel a).attempts.length) ∧
      ((sendLoop R J sig ts idem tm m fuel a).result.success = false →
        (sendLoop R J sig ts idem tm m fuel a).delays.length =
          (sendLoop R J sig ts idem tm m fuel a).attempts.length) := by
  intro fuel
  induction fuel with
  | zero => intro a; simp [sendLoop]
  | succ n ih =>
    intro a
    simp only [sendLoop]
    split
    · cases hRa : R a with
      | some code =>
        simp only [hRa]
        split
        · simp
        · have := ih (a + 1)
          simp only [List.length_cons]
          constructor
          · intro h
            have := this.1 h
            omega
          · intro h
            have := this.2 h
            omega
      | none =>
        simp only [hRa]
        have := ih (a + 1)
        simp only [List.length_cons]
        constructor
        · intro h
          have := this.1 h
          omega
        · intro h
          have := this.2 h
          omega
    · simp

/-! ### Claims about the dispatcher -/

/-- C1: with the default `max_retries` (i.e. `opts.maxRetries` absent, so the
`?? 5` fallback applies), `sendSignedWebhook` performs at most 6 delivery
attempts; against an endpoint whose first response is 2xx it returns a
success result after exactly one request, and against an endpoint that always
fails (non-2xx status or transport error) it performs exactly 6 attempts and
returns a failure result. -/
theorem c1_default_attempt_counts (hmacHex : String → String → String)
    (nowSec : Nat) (responder : Nat → Option Nat) (jitter : Nat → Nat)
    (opts : WebhookOptions) (hdef : opts.maxRetries = none) :
    (sendSignedWebhook hmacHex nowSec responder jitter opts).attempts.length ≤ 6 ∧
    (respAccepted (responder 0) = true →
      (sendSignedWebhook hmacHex nowSec responder jitter opts).result.success = true ∧
      (sendSignedWebhook hmacHex nowSec responder jitter opts).attempts.length = 1) ∧
    ((∀ i, respAccepted (responder i) = false) →
      (sendSignedWebhook hmacHex nowSec responder jitter opts).attempts.length = 6 ∧
      (sendSignedWebhook hmacHex nowSec responder jitter opts).result.success = false) := by
  simp only [sendSignedWebhook, hdef, Option.getD_none]
  refine ⟨?_, ?_, ?_⟩
  · exact sendLoop_attempts_le responder jitter _ _ _ _ 5 (5 + 1) 0
  · intro hacc
    obtain ⟨code, _, heq⟩ := sendLoop_first_accepted responder jitter
      (computeSignature hmacHex opts.secret opts.body) (toString nowSec)
      opts.idempotencyKey opts.testMode 5 (5 + 1) 0 (by omega) (by omega) hacc
    rw [heq]
    exact ⟨rfl, rfl⟩
  · intro hfail
    have h := sendLoop_allFail responder jitter
      (computeSignature hmacHex opts.secret opts.body) (toString nowSec)
      opts.idempotencyKey opts.testMode 5 hfail (5 + 1) 0
    exact ⟨by rw [h.1]; simp, by rw [h.2]⟩

/-- C1 witness: a dispatch with default retries against an endpoint that
always answers 500 performs exactly 6 attempts and fails. -/
theorem c1_default_attempt_counts_witness :
    (sendSignedWebhook (fun _ _ => "h") 7 (fun _ => some 500) (fun _ => 0)
      ⟨"u", "b", "s", none, none, false⟩).attempts.length = 6 ∧
    (sendSignedWebhook (fun _ _ => "h") 7 (fun _ => some 500) (fun _ => 0)
      ⟨"u", "b", "s", none, none, false⟩).result.success = false :=
  (c1_default_attempt_counts (fun _ _ => "h") 7 (fun _ => some 500) (fun _ => 0)
      ⟨"u", "b", "s", none, none, false⟩ rfl).2.2 (fun _ => by decide)

/-- C3 counterexample: in a dispatch with default retries, all-failing
endpoint and jitter 0, the delay recorded after the 5th failure
(`attempt_number = 5`) is 30000 ms, strictly below the lower bound
`2^5 * 1000 = 32000` claimed for the interval, so the claimed containment
`delay ∈ [2^n * 1000, …)` is false at `n = 5`, `jitter = 0`. -/
theorem c3_counterexample :
    (sendSignedWebhook (fun _ _ => "h") 7 (fun _ => some 500) (fun _ => 0)
      ⟨"u", "b", "s", none, none, false⟩).delays.get? 4 = some 30000 ∧
    ¬ (2 ^ (4 + 1) * 1000 ≤ 30000) := by decide

/-- C3 amended: for the k-th recorded backoff (attempt_number `n = k + 1`,
`n ∈ [1,6]` under default retries) with jitter values in `[0, 300)`, the
delay equals `min(30000, 1000 * 2^n + jitter)`, lies in the interval
`[min(30000, 2^n * 1000), min(30000, 2^n * 1000) + 300)` (the lower end is
capped at 30000 as well — for `n ≥ 5` the uncapped `2^n * 1000` exceeds the
cap), and never exceeds 30300 ms (indeed never exceeds 30000). -/
theorem c3_amended_backoff_bounds (hmacHex : String → String → String)
    (nowSec : Nat) (responder : Nat → Option Nat) (jitter : Nat → Nat)
    (opts : WebhookOptions) (hdef : opts.maxRetries = none)
    (hj : ∀ i, jitter i < 300) (k : Nat)
    (hk : k < (sendSignedWebhook hmacHex nowSec responder jitter opts).delays.length) :
    1 ≤ k + 1 ∧ k + 1 ≤ 6 ∧
    (sendSignedWebhook hmacHex nowSec responder jitter opts).delays.get? k =
      some (min 30000 (1000 * 2 ^ (k + 1) + jitter k)) ∧
    min 30000 (2 ^ (k + 1) * 1000) ≤ min 30000 (1000 * 2 ^ (k + 1) + jitter k) ∧
    min 30000 (1000 * 2 ^ (k + 1) + jitter k) < min 30000 (2 ^ (k + 1) * 1000) + 300 ∧
    min 30000 (1000 * 2 ^ (k + 1) + jitter k) ≤ 30300 := by
  simp only [sendSignedWebhook, hdef, Option.getD_none] at hk ⊢
  have hlen := sendLoop_delays_le responder jitter
    (computeSignature hmacHex opts.secret opts.body) (toString nowSec)
    opts.idempotencyKey opts.testMode 5 (5 + 1) 0
  have hget := sendLoop_delays_get? responder jitter
    (computeSignature hmacHex opts.secret opts.body) (toString nowSec)
    opts.idempotencyKey opts.testMode 5 (5 + 1) 0 k hk
  have hjk := hj k
  have hcomm : 2 ^ (k + 1) * 1000 = 1000 * 2 ^ (k + 1) := Nat.mul_comm _ _
  refine ⟨by omega, by omega, ?_, by omega, by omega, by omega⟩
  rw [hget]
  simp [backoffDelay]

/-- C3 amended witness: a concrete dispatch; the first recorded delay is
`min(30000, 1000 * 2^1 + 0) = 2000` ms. -/
theorem c3_amended_backoff_bounds_witness :
    (sendSignedWebhook (fun _ _ => "h") 7 (fun _ => some 500) (fun _ => 0)
      ⟨"u", "b", "s", none, none, false⟩).delays.get? 0 =
      some (min 30000 (1000 * 2 ^ (0 + 1) + 0)) :=
  (c3_amended_backoff_bounds (fun _ _ => "h") 7 (fun _ => some 500) (fun _ => 0)
      ⟨"u", "b", "s", none, none, false⟩ rfl (fun _ => by norm_num) 0 (by decide)).2.2.1

/-- C4 counterexample: against an endpoint whose every attempt throws a
transport error, the dispatcher with default retries performs 6 attempts and
suspends 6 times — it suspends for a backoff delay after the final failed
attempt as well, so the claim that no suspension follows the final attempt
(which would give `attempts - 1 = 5` suspensions) is false. -/
theorem c4_counterexample :
    (sendSignedWebhook (fun _ _ => "h") 7 (fun _ => none) (fun _ => 0)
      ⟨"u", "b", "s", none, none, false⟩).attempts.length = 6 ∧
    (sendSignedWebhook (fun _ _ => "h") 7 (fun _ => none) (fun _ => 0)
      ⟨"u", "b", "s", none, none, false⟩).delays.length = 6 ∧
    ¬ ((sendSignedWebhook (fun _ _ => "h") 7 (fun _ => none) (fun _ => 0)
      ⟨"u", "b", "s", none, none, false⟩).delays.length =
      (sendSignedWebhook (fun _ _ => "h") 7 (fun _ => none) (fun _ => 0)
      ⟨"u", "b", "s", none, none, false⟩).attempts.length - 1) := by decide

/-- C4 amended: the dispatcher suspends for the scheduled backoff delay after
every failed attempt, including the final one: on a successful dispatch the
number of suspensions is one less than the number of attempts (no delay after
the accepted attempt), while on a failed dispatch the number of suspensions
equals the number of attempts — the loop sleeps once more after the final
failure before returning. -/
theorem c4_amended_suspension_count (hmacHex : String → String → String)
    (nowSec : Nat) (responder : Nat → Option Nat) (jitter : Nat → Nat)
    (opts : WebhookOptions) :
    ((sendSignedWebhook hmacHex nowSec responder jitter opts).result.success = true →
      (sendSignedWebhook hmacHex nowSec responder jitter opts).delays.length + 1 =
        (sendSignedWebhook hmacHex nowSec responder jitter opts).attempts.length) ∧
    ((sendSignedWebhook hmacHex nowSec responder jitter opts).result.success = false →
      (sendSignedWebhook hmacHex nowSec responder jitter opts).delays.length =
        (sendSignedWebhook hmacHex nowSec responder jitter opts).attempts.length) := by
  simp only [sendSignedWebhook]
  exact sendLoop_delay_count responder jitter
    (computeSignature hmacHex opts.secret opts.body) (toString nowSec)
    opts.idempotencyKey opts.testMode (opts.maxRetries.getD 5)
    (opts.maxRetries.getD 5 + 1) 0

/-- C4 amended witness: on the all-transport-error dispatch, suspensions
equal attempts (6 each). -/
theorem c4_amended_suspension_count_witness :
    (sendSignedWebhook (fun _ _ => "h") 7 (fun _ => none) (fun _ => 0)
      ⟨"u", "b", "s", none, none, false⟩).delays.length =
    (sendSignedWebhook (fun _ _ => "h") 7 (fun _ => none) (fun _ => 0)
      ⟨"u", "b", "s", none, none, false⟩).attempts.length :=
  (c4_amended_suspension_count (fun _ _ => "h") 7 (fun _ => none) (fun _ => 0)
      ⟨"u", "b", "s", none, none, false⟩).2 (by decide)

/-- C5: within a single dispatch the signature (`"sha256=" ++` hex HMAC of
the body under the secret) and the timestamp are computed once, before the
loop, so the attempt at index `k` carries exactly that signature and
timestamp in its headers together with `X-Gateway-Retry-Count = k` (0 on the
first attempt). -/
theorem c5_signature_timestamp_constant (hmacHex : String → String → String)
    (nowSec : Nat) (responder : Nat → Option Nat) (jitter : Nat → Nat)
    (opts : WebhookOptions) (k : Nat)
    (hk : k < (sendSignedWebhook hmacHex nowSec responder jitter opts).attempts.length) :
    (sendSignedWebhook hmacHex nowSec responder jitter opts).attempts.get? k =
      some ⟨k, computeSignature hmacHex opts.secret opts.body, toString nowSec,
        opts.idempotencyKey, opts.testMode⟩ ∧
    computeSignature hmacHex opts.secret opts.body =
      "sha256=" ++ hmacHex opts.secret opts.body := by
  refine ⟨?_, rfl⟩
  simp only [sendSignedWebhook] at hk ⊢
  have := sendLoop_attempts_get? responder jitter
    (computeSignature hmacHex opts.secret opts.body) (toString nowSec)
    opts.idempotencyKey opts.testMode (opts.maxRetries.getD 5)
    (opts.maxRetries.getD 5 + 1) 0 k hk
  simpa using this

/-- C5 witness: on a concrete dispatch whose first attempt is rejected, the
second attempt (index 1) carries retry count 1 and the same once-computed
signature and timestamp. -/
theorem c5_signature_timestamp_constant_witness :
    (sendSignedWebhook (fun _ _ => "h") 7 (fun _ => some 500) (fun _ => 0)
      ⟨"u", "b", "s", none, none, false⟩).attempts.get? 1 =
      some ⟨1, computeSignature (fun _ _ => "h") "s" "b", toString 7, none, false⟩ :=
  (c5_signature_timestamp_constant (fun _ _ => "h") 7 (fun _ => some 500)
      (fun _ => 0) ⟨"u", "b", "s", none, none, false⟩ 1 (by decide)).1

/-- C9: `sendSignedWebhook` is total over every responder (every transport
exception is consumed by the in-loop catch): whenever the returned result is
a failure its `status` field is 0 — the HTTP status of the final failed
attempt is discarded — and when every attempt fails it returns exactly
`{ success := false, status := 0 }`. -/
theorem c9_failure_result_status_zero (hmacHex : String → String → String)
    (nowSec : Nat) (responder : Nat → Option Nat) (jitter : Nat → Nat)
    (opts : WebhookOptions) :
    ((sendSignedWebhook hmacHex nowSec responder jitter opts).result.success = false →
      (sendSignedWebhook hmacHex nowSec responder jitter opts).result.status = 0) ∧
    ((∀ i, respAccepted (responder i) = false) →
      (sendSignedWebhook hmacHex nowSec responder jitter opts).result =
        ⟨false, 0⟩) := by
  constructor
  · simp only [sendSignedWebhook]
    exact sendLoop_result_status responder jitter
      (computeSignature hmacHex opts.secret opts.body) (toString nowSec)
      opts.idempotencyKey opts.testMode (opts.maxRetries.getD 5)
      (opts.maxRetries.getD 5 + 1) 0
  · intro h
    simp only [sendSignedWebhook]
    exact (sendLoop_allFail responder jitter
      (computeSignature hmacHex opts.secret opts.body) (toString nowSec)
      opts.idempotencyKey opts.testMode (opts.maxRetries.getD 5) h
      (opts.maxRetries.getD 5 + 1) 0).2

/-- C9 witness: an endpoint that always answers 503 yields the failure
result `{ success := false, status := 0 }` — the 503 is discarded. -/
theorem c9_failure_result_status_zero_witness :
    (sendSignedWebhook (fun _ _ => "h") 7 (fun _ => some 503) (fun _ => 0)
      ⟨"u", "b", "s", none, none, false⟩).result = ⟨false, 0⟩ :=
  (c9_failure_result_status_zero (fun _ _ => "h") 7 (fun _ => some 503)
      (fun _ => 0) ⟨"u", "b", "s", none, none, false⟩).2 (fun _ => by decide)

/-! ## Data model (shared/schema.ts, server/storage.ts) -/

/-- `status` values of a stored v2 order (`"CREATED"`, `"COMPLETED"`,
`"FAILED"`). -/
inductive V2Status
  | created
  | completed
  | failed
deriving DecidableEq, Repr

/-- Transaction `status` (`"success" | "failed"`). -/
inductive TxnStatus
  | success
  | failed
deriving DecidableEq, Repr

/-- `PaymentMethod = "card" | "upi" | "netbanking"`. -/
inductive PaymentMethod
  | card
  | upi
  | netbanking
deriving DecidableEq, Repr

/-- The nested `cardDetails` object of `processPaymentSchema`. -/
structure CardDetails where
  cardNumber : String
  expiry : String
  cvv : String
  cardHolderName : String
deriving DecidableEq, Repr

/-- Parsed body of `/api/process-payment` (`processPaymentSchema`):
`bankAccountId`, `cardDetails` and `upiId` are all `.optional()`. -/
structure ProcessPaymentInput where
  orderId : String
  amount : Int
  paymentMethod : PaymentMethod
  bankAccountId : Option String
  cardDetails : Option CardDetails
  upiId : Option String
deriving DecidableEq, Repr

/-- A stored bank account (`bankAccountSchema`). -/
structure BankAccount where
  id : String
  accountHolderName : String
  accountNumber : String
  bankName : String
  balance : Int
deriving DecidableEq, Repr

/-- A v1 order (`orderSchema`). -/
structure Order where
  id : String
  name : String
  email : String
  phone : String
  amount : Int
deriving DecidableEq, Repr

/-- A stored v2 order, as built by `MemStorage.createOrderV2`. -/
structure V2Order where
  gateway_order_id : String
  merchant_id : String
  merchant_order_id : String
  one_time_order_token : String
  amount_in_paisa : Int
  currency : String
  return_url : String
  callback_url : String
  test_mode : Bool
  status : V2Status
  created_at : String
  paid_at : Option String
  transaction_id : Option String
deriving DecidableEq, Repr

/-- A stored transaction (`transactionSchema`), created by
`storage.createTransaction`. -/
structure Transaction where
  id : String
  orderId : String
  amount : Int
  paymentMethod : PaymentMethod
  bankAccountId : Option String
  bankName : Option String
  status : TxnStatus
  failureReason : Option String
  timestamp : String
deriving DecidableEq, Repr

/-- A fire-and-forget `sendSignedWebhook` invocation issued by the
process-payment handler, with the arguments the route layer passes. -/
structure DispatchCall where
  url : String
  payloadStatus : String
  gatewayOrderId : String
  paymentRef : String
  idempotencyKey : Option String
  testMode : Bool
deriving DecidableEq, Repr

/-- The in-memory `MemStorage` maps, plus the log of webhook dispatches the
route layer has fired (the observable effect of the `sendSignedWebhook(...)
.then(...)` call, which is not awaited). -/
structure GatewayState where
  orders : List (String × Order)
  v2orders : List (String × V2Order)
  bankAccounts : List BankAccount
  transactions : List Transaction
  dispatches : List DispatchCall
deriving DecidableEq, Repr

/-- `Map.get` on a string-keyed map, modelled as an association list. -/
def lookupA {α : Type} (l : List (String × α)) (k : String) : Option α :=
  (l.find? (fun p => p.1 == k)).map (fun p => p.2)

/-- `Map.set` on an existing key: replace the entry bound to `k`. -/
def updateA {α : Type} (l : List (String × α)) (k : String) (v : α) :
    List (String × α) :=
  l.map (fun p => if p.1 == k then (k, v) else p)

/-- JS `String.prototype.startsWith`, over the character sequence. -/
def strStartsWith (s pat : String) : Bool :=
  pat.data.isPrefixOf s.data

/-- Helper for `includesSubstr`: does `pat` occur at some position of the
character list? -/
def includesAux (pat : List Char) : List Char → Bool
  | [] => pat.isEmpty
  | c :: rest => pat.isPrefixOf (c :: rest) || includesAux pat rest

/-- JS `String.prototype.includes`: `pat` occurs somewhere in `s`
(used for `upiId.includes("fail")`). -/
def includesSubstr (s pat : String) : Bool :=
  includesAux pat.data s.data

/-! ## Process-payment handler (route layer, process-payment block) -/

/-- Responses of `/api/process-payment` that the claims distinguish. -/
inductive PayResp
  | orderNotFound
  | bankNotFound
  | txn (t : Transaction)
deriving DecidableEq, Repr

/-- `updateBankAccountBalance`: set the balance of account `baId`. -/
def setBalance (s : GatewayState) (baId : String) (newBal : Int) :
    GatewayState :=
  { s with bankAccounts :=
      s.bankAccounts.map (fun a => if a.id == baId then { a with balance := newBal } else a) }

/-- The payment-simulation `if`/`else if` chain of the process-payment
handler (the `status`/`failureReason`/`bankName` computation). Returns
`none` when the netbanking branch hits a missing bank account (the 404
path); otherwise the possibly-updated state (netbanking debits the
balance) together with `status`, `failureReason`, `bankName`. A branch
runs only when both its method matches and its method-specific detail is
present; otherwise the initial `("success", undefined)` survives. -/
def simulateOutcome (s : GatewayState) (inp : ProcessPaymentInput) :
    Option (GatewayState × TxnStatus × Option String × Option String) :=
  match inp.paymentMethod with
  | .netbanking =>
    match inp.bankAccountId with
    | some baId =>
      match s.bankAccounts.find? (fun a => a.id == baId) with
      | none => none
      | some acct =>
        if acct.balance < inp.amount then
          some (s, .failed, some "Insufficient balance in the selected bank account",
            some acct.bankName)
        else
          some (setBalance s baId (acct.balance - inp.amount), .success, none,
            some acct.bankName)
    | none => some (s, .success, none, none)
  | .card =>
    match inp.cardDetails with
    | some cd =>
      if cd.cardNumber.takeRight 4 = "0000" then
        some (s, .failed, some "Card declined by issuer", none)
      else if cd.cardNumber.takeRight 4 = "1111" then
        some (s, .failed, some "Insufficient funds", none)
      else
        some (s, .success, none, none)
    | none => some (s, .success, none, none)
  | .upi =>
    match inp.upiId with
    | some u =>
      if includesSubstr u "fail" then
        some (s, .failed, some "UPI transaction declined", none)
      else
        some (s, .success, none, none)
    | none => some (s, .success, none, none)

/-- Body of the process-payment handler after the order-existence gate:
outcome simulation, `createTransaction`, and the v2 webhook block. The v2
block looks the order up in the `v2orders` map by the raw `orderId`; when
found it unconditionally assigns the terminal status, stamps `paid_at`,
binds `transaction_id`, and fires `sendSignedWebhook` (recorded in
`dispatches`) without awaiting it. `txnId` and `nowIso` stand for the
generated transaction id and `new Date().toISOString()`. -/
def processPaymentBody (nowIso txnId : String) (s : GatewayState)
    (inp : ProcessPaymentInput) : GatewayState × PayResp :=
  match simulateOutcome s inp with
  | none => (s, .bankNotFound)
  | some (s1, st, fr, bn) =>
    let txn : Transaction := ⟨txnId, inp.orderId, inp.amount, inp.paymentMethod,
      inp.bankAccountId, bn, st, fr, nowIso⟩
    let s2 := { s1 with transactions := s1.transactions ++ [txn] }
    match lookupA s2.v2orders inp.orderId with
    | none => (s2, .txn txn)
    | some v2 =>
      let newStatus := if st = TxnStatus.success then V2Status.completed
        else V2Status.failed
      let v2u := { v2 with
        status := newStatus
        paid_at := some nowIso
        transaction_id := some txn.id }
      let s3 := { s2 with v2orders := updateA s2.v2orders inp.orderId v2u }
      let call : DispatchCall := ⟨v2.callback_url,
        (if st = TxnStatus.success then "SUCCESS" else "FAILED"),
        v2.gateway_order_id, txn.id, some txn.id, v2.test_mode⟩
      ({ s3 with dispatches := s3.dispatches ++ [call] }, .txn txn)

/-- The `/api/process-payment` handler: the order-existence gate (v1 lookup,
then — for ids starting `gw_` — the v2 lookup) followed by the body. -/
def processPayment (nowIso txnId : String) (s : GatewayState)
    (inp : ProcessPaymentInput) : GatewayState × PayResp :=
  let order := lookupA s.orders inp.orderId
  if order.isNone && strStartsWith inp.orderId "gw_" then
    match lookupA s.v2orders inp.orderId with
    | none => (s, .orderNotFound)
    | some _ => processPaymentBody nowIso txnId s inp
  else if order.isNone then
    (s, .orderNotFound)
  else
    processPaymentBody nowIso txnId s inp

/-- The continuation the handler attaches to the fire-and-forget dispatch
promise (`.then((r) => { if (!r.success) console.error(...) })`): it only
logs, so the gateway state is untouched whatever the delivery result. -/
def onDeliveryOutcome (s : GatewayState) (_r : DeliveryResult) : GatewayState :=
  s

/-! ## V2 order creation (route layer, /api/v2/orders) -/

/-- The observable pieces of a WHATWG `URL` object that the handler reads:
`url.protocol` (scheme with trailing colon) and `url.hostname`. -/
structure UrlParts where
  protocol : String
  hostname : String
deriving DecidableEq, Repr

/-- Parsed body of `/api/v2/orders` (`createOrderV2Schema`), with the fields
the handler and the claims use. -/
structure CreateOrderV2Req where
  merchant_id : String
  order_id : String
  one_time_order_token : Option String
  amount_in_paisa : Int
  currency : String
  return_url : String
  callback_url : String
  test_mode : Bool
deriving DecidableEq, Repr

/-- The zod checks of `createOrderV2Schema` other than the two `.url()`
string checks: `amount_in_paisa` is a positive integer and the optional
`one_time_order_token` has length in [32, 128]. -/
def restValid (req : CreateOrderV2Req) : Bool :=
  decide (0 < req.amount_in_paisa) &&
    (match req.one_time_order_token with
     | none => true
     | some t => decide (32 ≤ t.length ∧ t.length ≤ 128))

/-- `createOrderV2Schema.safeParse` succeeds iff the non-URL checks pass and
both `return_url` and `callback_url` are accepted by `z.string().url()`.
zod v3 implements the `url()` check by invoking the same WHATWG `URL`
constructor the handler later calls, so both are modelled by the single
`parseUrl` parameter. -/
def schemaOk (parseUrl : String → Option UrlParts) (req : CreateOrderV2Req) :
    Bool :=
  restValid req && (parseUrl req.return_url).isSome &&
    (parseUrl req.callback_url).isSome

/-- The URL rule of the v2 create-order handler: HTTPS, or a
`localhost`/`127.0.0.1` hostname for sandbox testing. -/
def urlAllowed (u : UrlParts) : Bool :=
  u.protocol == "https:" || u.hostname == "localhost" || u.hostname == "127.0.0.1"

/-- Responses of `/api/v2/orders` that the claims distinguish: the 400
schema-validation rejection (`{ error: "Validation failed" }`), the 400
URL rejection (`{ error: "ERR_URL_NOT_REGISTERED" }`), and the 201
creation response. -/
inductive V2CreateOutcome
  | validationFailed
  | urlNotRegistered
  | created (gatewayOrderId : String)
deriving DecidableEq, Repr

/-- The `/api/v2/orders` handler composed with `storage.createOrderV2`:
zod validation, then the URL rules (`new URL` on both fields — its `catch`
is the final branch — and the HTTPS/localhost check), then the store
insert. `gwId`/`token`/`nowIso` stand for the generated gateway order id,
the generated one-time token fallback and `new Date().toISOString()`. -/
def createOrderV2 (parseUrl : String → Option UrlParts)
    (gwId token nowIso : String) (s : GatewayState) (req : CreateOrderV2Req) :
    GatewayState × V2CreateOutcome :=
  if !(schemaOk parseUrl req) then
    (s, .validationFailed)
  else
    match parseUrl req.return_url, parseUrl req.callback_url with
    | some ru, some cu =>
      if !(urlAllowed ru) || !(urlAllowed cu) then
        (s, .urlNotRegistered)
      else
        let stored : V2Order := ⟨gwId, req.merchant_id, req.order_id,
          req.one_time_order_token.getD token, req.amount_in_paisa,
          req.currency, req.return_url, req.callback_url, req.test_mode,
          .created, nowIso, none, none⟩
        ({ s with v2orders := s.v2orders ++ [(gwId, stored)] }, .created gwId)
    | _, _ => (s, .urlNotRegistered)

/-! ### Store and handler lemmas -/

theorem lookupA_updateA_self {α : Type} (l : List (String × α)) (k : String)
    (w : α) (h : (lookupA l k).isSome = true) :
    lookupA (updateA l k w) k = some w := by
  induction l with
  | nil => simp [lookupA] at h
  | cons p rest ih =>
    by_cases hp : p.1 == k
    · simp [lookupA, updateA, List.find?, hp]
    · simp only [lookupA, updateA, List.map_cons, if_neg hp] at h ⊢
      rw [List.find?_cons_of_neg _ (by simpa using hp)] at h ⊢
      exact ih h

theorem lookupA_updateA_ne {α : Type} (l : List (String × α)) (k kq : String)
    (w : α) (h : kq ≠ k) :
    lookupA (updateA l k w) kq = lookupA l kq := by
  induction l with
  | nil => simp [lookupA, updateA]
  | cons p rest ih =>
    by_cases hp : p.1 == k
    · have hpk : p.1 = k := by simpa using hp
      have hne : ¬ (k == kq) := by simpa using (fun hq => h hq.symm)
      have hne2 : ¬ (p.1 == kq) := by
        simp only [hpk]
        exact hne
      simp only [lookupA, updateA, List.map_cons, if_pos hp]
      rw [List.find?_cons_of_neg _ (by simpa using hne),
        List.find?_cons_of_neg _ (by simpa using hne2)]
      exact ih
    · simp only [lookupA, updateA, List.map_cons, if_neg hp]
      by_cases hq : p.1 == kq
      · rw [List.find?_cons_of_pos _ (by simpa using hq),
          List.find?_cons_of_pos _ (by simpa using hq)]
      · rw [List.find?_cons_of_neg _ (by simpa using hq),
          List.find?_cons_of_neg _ (by simpa using hq)]
        exact ih

theorem simFrame_aux (s t s1 : GatewayState) (st0 st : TxnStatus)
    (fr0 fr bn0 bn : Option String)
    (ht : t.orders = s.orders ∧ t.v2orders = s.v2orders ∧
      t.transactions = s.transactions ∧ t.dispatches = s.dispatches)
    (h : (some (t, st0, fr0, bn0) :
        Option (GatewayState × TxnStatus × Option String × Option String)) =
      some (s1, st, fr, bn)) :
    s1.orders = s.orders ∧ s1.v2orders = s.v2orders ∧
      s1.transactions = s.transactions ∧ s1.dispatches = s.dispatches := by
  simp only [Option.some.injEq, Prod.mk.injEq] at h
  obtain ⟨h1, -, -, -⟩ := h
  subst h1
  exact ht

theorem simulateOutcome_frame (s : GatewayState) (inp : ProcessPaymentInput)
    (s1 : GatewayState) (st : TxnStatus) (fr bn : Option String)
    (h : simulateOutcome s inp = some (s1, st, fr, bn)) :
    s1.orders = s.orders ∧ s1.v2orders = s.v2orders ∧
      s1.transactions = s.transactions ∧ s1.dispatches = s.dispatches := by
  unfold simulateOutcome at h
  cases hm : inp.paymentMethod <;> simp only [hm] at h
  case card =>
    cases hcd : inp.cardDetails <;> simp only [hcd] at h
    case none => exact simFrame_aux s s s1 _ _ _ _ _ _ ⟨rfl, rfl, rfl, rfl⟩ h
    case some cd =>
      by_cases h0 : cd.cardNumber.takeRight 4 = "0000"
      · rw [if_pos h0] at h
        exact simFrame_aux s s s1 _ _ _ _ _ _ ⟨rfl, rfl, rfl, rfl⟩ h
      · rw [if_neg h0] at h
        by_cases h1c : cd.cardNumber.takeRight 4 = "1111"
        · rw [if_pos h1c] at h
          exact simFrame_aux s s s1 _ _ _ _ _ _ ⟨rfl, rfl, rfl, rfl⟩ h
        · rw [if_neg h1c] at h
          exact simFrame_aux s s s1 _ _ _ _ _ _ ⟨rfl, rfl, rfl, rfl⟩ h
  case upi =>
    cases hu : inp.upiId <;> simp only [hu] at h
    case none => exact simFrame_aux s s s1 _ _ _ _ _ _ ⟨rfl, rfl, rfl, rfl⟩ h
    case some u =>
      by_cases hf : includesSubstr u "fail" = true
      · rw [if_pos hf] at h
        exact simFrame_aux s s s1 _ _ _ _ _ _ ⟨rfl, rfl, rfl, rfl⟩ h
      · rw [if_neg hf] at h
        exact simFrame_aux s s s1 _ _ _ _ _ _ ⟨rfl, rfl, rfl, rfl⟩ h
  case netbanking =>
    cases hb : inp.bankAccountId <;> simp only [hb] at h
    case none => exact simFrame_aux s s s1 _ _ _ _ _ _ ⟨rfl, rfl, rfl, rfl⟩ h
    case some baId =>
      cases hfind : s.bankAccounts.find? (fun a => a.id == baId) <;>
        simp only [hfind] at h
      case none => exact Option.noConfusion h
      case some acct =>
        by_cases hlt : acct.balance < inp.amount
        · rw [if_pos hlt] at h
          exact simFrame_aux s s s1 _ _ _ _ _ _ ⟨rfl, rfl, rfl, rfl⟩ h
        · rw [if_neg hlt] at h
          exact simFrame_aux s (setBalance s baId (acct.balance - inp.amount))
            s1 _ _ _ _ _ _ ⟨rfl, rfl, rfl, rfl⟩ h

theorem simulateOutcome_card_upi_some (s : GatewayState)
    (inp : ProcessPaymentInput)
    (h : inp.paymentMethod ≠ PaymentMethod.netbanking) :
    (simulateOutcome s inp).isSome = true := by
  unfold simulateOutcome
  cases hm : inp.paymentMethod
  case netbanking => exact absurd hm h
  case card =>
    cases hcd : inp.cardDetails
    case none => rfl
    case some cd =>
      by_cases h0 : cd.cardNumber.takeRight 4 = "0000"
      · simp [h0]
      · by_cases h1c : cd.cardNumber.takeRight 4 = "1111"
        · simp [h0, h1c]
        · simp [h0, h1c]
  case upi =>
    cases hu : inp.upiId
    case none => rfl
    case some u =>
      by_cases hf : includesSubstr u "fail" = true
      · simp [hf]
      · simp [hf]

theorem processPayment_gate (nowIso txnId : String) (s : GatewayState)
    (inp : ProcessPaymentInput)
    (h : (lookupA s.orders inp.orderId).isSome = true ∨
      (strStartsWith inp.orderId "gw_" = true ∧
        (lookupA s.v2orders inp.orderId).isSome = true)) :
    processPayment nowIso txnId s inp = processPaymentBody nowIso txnId s inp := by
  rcases h with h | ⟨h1, h2⟩
  · cases ho : lookupA s.orders inp.orderId with
    | none => rw [ho] at h; simp at h
    | some o => simp [processPayment, ho]
  · cases ho : lookupA s.orders inp.orderId with
    | some o => simp [processPayment, ho]
    | none =>
      cases hv : lookupA s.v2orders inp.orderId with
      | none => rw [hv] at h2; simp at h2
      | some v => simp [processPayment, ho, h1, hv]

theorem processPaymentBody_txn (nowIso txnId : String) (s : GatewayState)
    (inp : ProcessPaymentInput) (s1 : GatewayState) (st : TxnStatus)
    (fr bn : Option String)
    (hsim : simulateOutcome s inp = some (s1, st, fr, bn)) :
    ∃ t, (processPaymentBody nowIso txnId s inp).2 = PayResp.txn t ∧
      t.status = st ∧ t.failureReason = fr := by
  simp only [processPaymentBody, hsim]
  cases hl : lookupA s1.v2orders inp.orderId with
  | none => simp [hl]
  | some v2 => simp [hl]

theorem processPaymentBody_no_v2 (nowIso txnId : String) (s : GatewayState)
    (inp : ProcessPaymentInput) (s1 : GatewayState) (st : TxnStatus)
    (fr bn : Option String)
    (hsim : simulateOutcome s inp = some (s1, st, fr, bn))
    (hv2 : lookupA s.v2orders inp.orderId = none) :
    (processPaymentBody nowIso txnId s inp).1.dispatches = s.dispatches := by
  have hfr := simulateOutcome_frame s inp s1 st fr bn hsim
  have hl : lookupA s1.v2orders inp.orderId = none := by
    rw [hfr.2.1]
    exact hv2
  simp only [processPaymentBody, hsim, hl]
  exact hfr.2.2.2

theorem processPaymentBody_with_v2 (nowIso txnId : String) (s : GatewayState)
    (inp : ProcessPaymentInput) (s1 : GatewayState) (st : TxnStatus)
    (fr bn : Option String) (v2 : V2Order)
    (hsim : simulateOutcome s inp = some (s1, st, fr, bn))
    (hv2 : lookupA s.v2orders inp.orderId = some v2) :
    processPaymentBody nowIso txnId s inp =
      ({ s1 with
          transactions := s1.transactions ++
            [⟨txnId, inp.orderId, inp.amount, inp.paymentMethod,
              inp.bankAccountId, bn, st, fr, nowIso⟩]
          v2orders := updateA s1.v2orders inp.orderId { v2 with
            status := (if st = TxnStatus.success then V2Status.completed
              else V2Status.failed)
            paid_at := some nowIso
            transaction_id := some txnId }
          dispatches := s1.dispatches ++
            [⟨v2.callback_url,
              (if st = TxnStatus.success then "SUCCESS" else "FAILED"),
              v2.gateway_order_id, txnId, some txnId, v2.test_mode⟩] },
        PayResp.txn ⟨txnId, inp.orderId, inp.amount, inp.paymentMethod,
          inp.bankAccountId, bn, st, fr, nowIso⟩) := by
  have hfr := simulateOutcome_frame s inp s1 st fr bn hsim
  have hl : lookupA s1.v2orders inp.orderId = some v2 := by
    rw [hfr.2.1]
    exact hv2
  simp only [processPaymentBody, hsim, hl]

/-- Response projection of `processPaymentBody`: the handler always answers
with the transaction it just created, whose fields come from the simulated
outcome. -/
theorem processPaymentBody_resp (nowIso txnId : String) (s : GatewayState)
    (inp : ProcessPaymentInput) (s1 : GatewayState) (st : TxnStatus)
    (fr bn : Option String)
    (hsim : simulateOutcome s inp = some (s1, st, fr, bn)) :
    (processPaymentBody nowIso txnId s inp).2 =
      PayResp.txn ⟨txnId, inp.orderId, inp.amount, inp.paymentMethod,
        inp.bankAccountId, bn, st, fr, nowIso⟩ := by
  simp only [processPaymentBody, hsim]
  cases hl : lookupA s1.v2orders inp.orderId with
  | none => simp [hl]
  | some v2 => simp [hl]

/-! ### Fixtures for witnesses and counterexamples -/

/-- A v2 order already in the terminal state COMPLETED, whose first
webhook has already been dispatched. -/
def replayOrder : V2Order := ⟨"gw_1", "m1", "ord_1", "tok", 49900, "INR",
  "https://merchant.example/r", "https://merchant.example/cb", true,
  .completed, "t0", some "t0", some "TXN_0"⟩

/-- State holding `replayOrder` with its first dispatch already recorded. -/
def replayState : GatewayState := ⟨[], [("gw_1", replayOrder)], [], [],
  [⟨"https://merchant.example/cb", "SUCCESS", "gw_1", "TXN_0", some "TXN_0", true⟩]⟩

/-- A replayed card processing event against `replayOrder`, with a card that
the simulation declines. -/
def replayInput : ProcessPaymentInput := ⟨"gw_1", 49900, .card, none,
  some ⟨"4000000000000000", "12/30", "123", "T"⟩, none⟩

/-- A v2 order still in CREATED. -/
def freshOrder : V2Order := ⟨"gw_2", "m1", "ord_2", "tok2", 10000, "INR",
  "https://merchant.example/r", "https://merchant.example/cb", false,
  .created, "t0", none, none⟩

/-- State holding `freshOrder` only. -/
def freshState : GatewayState := ⟨[], [("gw_2", freshOrder)], [], [], []⟩

/-- A successful card payment for `freshOrder`. -/
def freshCardInput : ProcessPaymentInput := ⟨"gw_2", 10000, .card, none,
  some ⟨"4242424242424242", "12/30", "123", "T"⟩, none⟩

/-- A card payment for `freshOrder` with a declining card (last four 0000). -/
def declineInput : ProcessPaymentInput := ⟨"gw_2", 10000, .card, none,
  some ⟨"4000000000000000", "12/30", "123", "T"⟩, none⟩

/-- A upi payment for `freshOrder` with `upiId` omitted. -/
def upiNoIdInput : ProcessPaymentInput := ⟨"gw_2", 10000, .upi, none, none, none⟩

/-- Empty store. -/
def emptyState : GatewayState := ⟨[], [], [], [], []⟩

/-- A concrete model of the WHATWG `URL` constructor for the fixture URLs. -/
def demoParse : String → Option UrlParts :=
  fun str =>
    if str == "https://good.example/cb" then some ⟨"https:", "good.example"⟩
    else if str == "http://plain.example/r" then some ⟨"http:", "plain.example"⟩
    else none

/-- A v2 create-order request whose `return_url` is not parseable as a URL
(every other field valid). -/
def badReturnReq : CreateOrderV2Req := ⟨"m1", "ord_3", none, 49900, "INR",
  "::not-a-url::", "https://good.example/cb", false⟩

/-- A v2 create-order request whose `return_url` parses but is plain HTTP on
a non-local host. -/
def httpReturnReq : CreateOrderV2Req := ⟨"m1", "ord_4", none, 49900, "INR",
  "http://plain.example/r", "https://good.example/cb", false⟩

/-! ### Claims about the route layer -/

/-- C2 counterexample: `replayState` holds order `gw_1` already terminal
(COMPLETED, first webhook already dispatched). Replaying a processing event
for it performs a second transition — the status is re-assigned following
the replayed outcome, here COMPLETED to FAILED — and fires a second webhook
dispatch, so the claimed idempotent-replay protection ("no second
transition and no second webhook dispatch") is false on the code. -/
theorem c2_counterexample :
    (lookupA replayState.v2orders "gw_1").map V2Order.status =
      some V2Status.completed ∧
    (lookupA (processPayment "t1" "TXN_1" replayState replayInput).1.v2orders
      "gw_1").map V2Order.status = some V2Status.failed ∧
    (processPayment "t1" "TXN_1" replayState replayInput).1.dispatches.length =
      replayState.dispatches.length + 1 := by decide

/-- C2 amended: the process-payment handler protects nothing about terminal
orders: replaying a payment-processing event for a v2 order already in a
terminal state re-assigns the order's terminal status according to the
replayed outcome (possibly switching COMPLETED and FAILED) and dispatches
one additional webhook. What does hold: the status assigned is always
terminal (never back to CREATED), and the v2 orders other than the processed
one are untouched. -/
theorem c2_amended_replay_not_idempotent (nowIso txnId : String)
    (s : GatewayState) (inp : ProcessPaymentInput) (v2 : V2Order)
    (hv2 : lookupA s.v2orders inp.orderId = some v2)
    (hterm : v2.status = V2Status.completed ∨ v2.status = V2Status.failed)
    (hgw : strStartsWith inp.orderId "gw_" = true)
    (hsim : (simulateOutcome s inp).isSome = true) :
    (processPayment nowIso txnId s inp).1.dispatches.length =
      s.dispatches.length + 1 ∧
    (∃ v2f t, (processPayment nowIso txnId s inp).2 = PayResp.txn t ∧
      lookupA (processPayment nowIso txnId s inp).1.v2orders inp.orderId =
        some v2f ∧
      v2f.status = (if t.status = TxnStatus.success then V2Status.completed
        else V2Status.failed) ∧
      v2f.status ≠ V2Status.created) ∧
    (∀ k, k ≠ inp.orderId →
      lookupA (processPayment nowIso txnId s inp).1.v2orders k =
        lookupA s.v2orders k) := by
  obtain ⟨q, hq⟩ := Option.isSome_iff_exists.mp hsim
  obtain ⟨s1, st, fr, bn⟩ := q
  have hfr := simulateOutcome_frame s inp s1 st fr bn hq
  have hgate := processPayment_gate nowIso txnId s inp
    (Or.inr ⟨hgw, by rw [hv2]; rfl⟩)
  rw [hgate,
    processPaymentBody_with_v2 nowIso txnId s inp s1 st fr bn v2 hq hv2]
  have hself : (lookupA s1.v2orders inp.orderId).isSome = true := by
    rw [hfr.2.1, hv2]
    rfl
  refine ⟨?_, ?_, ?_⟩
  · show (s1.dispatches ++ _).length = s.dispatches.length + 1
    rw [List.length_append, hfr.2.2.2]
    rfl
  · refine ⟨{ v2 with
        status := (if st = TxnStatus.success then V2Status.completed
          else V2Status.failed)
        paid_at := some nowIso
        transaction_id := some txnId }, _, rfl, ?_, ?_, ?_⟩
    · show lookupA (updateA s1.v2orders inp.orderId _) inp.orderId = _
      exact lookupA_updateA_self s1.v2orders inp.orderId _ hself
    · rfl
    · cases st <;> simp
  · intro k hk
    show lookupA (updateA s1.v2orders inp.orderId _) k = lookupA s.v2orders k
    rw [lookupA_updateA_ne s1.v2orders inp.orderId k _ hk, hfr.2.1]

/-- C2 amended witness: the concrete replay re-dispatches (one more recorded
dispatch than before). -/
theorem c2_amended_replay_not_idempotent_witness :
    (processPayment "t1" "TXN_1" replayState replayInput).1.dispatches.length =
      replayState.dispatches.length + 1 :=
  (c2_amended_replay_not_idempotent "t1" "TXN_1" replayState replayInput
    replayOrder (by decide) (Or.inl (by decide)) (by decide) (by decide)).1

/-- C6: the terminal status a payment-processing event assigns to a v2 order
is unaffected by the webhook delivery outcome: the continuation attached to
the fire-and-forget dispatch leaves the state untouched for every delivery
result `r` (including retry exhaustion, `r = ⟨false, 0⟩`), and in that
post-delivery state the processed order carries the terminal status
determined by the transaction outcome. -/
theorem c6_delivery_never_rolls_back (nowIso txnId : String)
    (s : GatewayState) (inp : ProcessPaymentInput) (r : DeliveryResult)
    (v2 : V2Order)
    (hv2 : lookupA s.v2orders inp.orderId = some v2)
    (hgw : strStartsWith inp.orderId "gw_" = true)
    (hsim : (simulateOutcome s inp).isSome = true) :
    onDeliveryOutcome (processPayment nowIso txnId s inp).1 r =
      (processPayment nowIso txnId s inp).1 ∧
    (∃ v2f t, (processPayment nowIso txnId s inp).2 = PayResp.txn t ∧
      lookupA (onDeliveryOutcome (processPayment nowIso txnId s inp).1
        r).v2orders inp.orderId = some v2f ∧
      v2f.status = (if t.status = TxnStatus.success then V2Status.completed
        else V2Status.failed) ∧
      (v2f.status = V2Status.completed ∨ v2f.status = V2Status.failed)) := by
  obtain ⟨q, hq⟩ := Option.isSome_iff_exists.mp hsim
  obtain ⟨s1, st, fr, bn⟩ := q
  have hfr := simulateOutcome_frame s inp s1 st fr bn hq
  have hgate := processPayment_gate nowIso txnId s inp
    (Or.inr ⟨hgw, by rw [hv2]; rfl⟩)
  rw [hgate,
    processPaymentBody_with_v2 nowIso txnId s inp s1 st fr bn v2 hq hv2]
  have hself : (lookupA s1.v2orders inp.orderId).isSome = true := by
    rw [hfr.2.1, hv2]
    rfl
  refine ⟨rfl, { v2 with
      status := (if st = TxnStatus.success then V2Status.completed
        else V2Status.failed)
      paid_at := some nowIso
      transaction_id := some txnId }, _, rfl, ?_, ?_, ?_⟩
  · show lookupA (updateA s1.v2orders inp.orderId _) inp.orderId = _
    exact lookupA_updateA_self s1.v2orders inp.orderId _ hself
  · rfl
  · cases st <;> simp

/-- C6 witness: for the concrete successful card payment on a CREATED order,
a delivery result of total failure (`⟨false, 0⟩`, retry exhaustion) leaves
the post-transition state — with its COMPLETED order — unchanged. -/
theorem c6_delivery_never_rolls_back_witness :
    onDeliveryOutcome (processPayment "t1" "TXN_1" freshState freshCardInput).1
      ⟨false, 0⟩ = (processPayment "t1" "TXN_1" freshState freshCardInput).1 :=
  (c6_delivery_never_rolls_back "t1" "TXN_1" freshState freshCardInput
    ⟨false, 0⟩ freshOrder (by decide) (by decide) (by decide)).1

/-- C7 counterexample: a v2 order-creation request whose `return_url` is not
parseable as a URL (all other fields valid) is rejected with the schema
error `Validation failed` — by `z.string().url()`, which runs before the
handler's URL rule — not with `ERR_URL_NOT_REGISTERED`, so the claimed
"if and only if" (rejection with `ERR_URL_NOT_REGISTERED` whenever a URL is
unparseable) is false. -/
theorem c7_counterexample :
    demoParse badReturnReq.return_url = none ∧
    (createOrderV2 demoParse "gw_9" "tok" "t0" emptyState badReturnReq).2 =
      V2CreateOutcome.validationFailed ∧
    ¬ ((createOrderV2 demoParse "gw_9" "tok" "t0" emptyState badReturnReq).2 =
      V2CreateOutcome.urlNotRegistered) := by decide

/-- C7 amended: for a v2 order-creation request whose non-URL fields pass
validation, the request is rejected with HTTP 400 and
`ERR_URL_NOT_REGISTERED` iff both `return_url` and `callback_url` are
parseable as URLs and at least one of them is neither HTTPS nor has hostname
`localhost`/`127.0.0.1`; a request with an unparseable URL is instead
rejected 400 by schema validation (`Validation failed`); and on either
rejection no order is created (the store is unchanged). -/
theorem c7_amended_url_rejection (parseUrl : String → Option UrlParts)
    (gwId token nowIso : String) (s : GatewayState) (req : CreateOrderV2Req)
    (hrest : restValid req = true) :
    ((createOrderV2 parseUrl gwId token nowIso s req).2 =
        V2CreateOutcome.urlNotRegistered ↔
      (∃ ru cu, parseUrl req.return_url = some ru ∧
        parseUrl req.callback_url = some cu ∧
        (urlAllowed ru = false ∨ urlAllowed cu = false))) ∧
    ((parseUrl req.return_url = none ∨ parseUrl req.callback_url = none) →
      (createOrderV2 parseUrl gwId token nowIso s req).2 =
        V2CreateOutcome.validationFailed) ∧
    (((createOrderV2 parseUrl gwId token nowIso s req).2 =
        V2CreateOutcome.validationFailed ∨
      (createOrderV2 parseUrl gwId token nowIso s req).2 =
        V2CreateOutcome.urlNotRegistered) →
      (createOrderV2 parseUrl gwId token nowIso s req).1 = s) := by
  unfold createOrderV2 schemaOk
  cases hru : parseUrl req.return_url with
  | none => simp [hrest, hru]
  | some ru =>
    cases hcu : parseUrl req.callback_url with
    | none => simp [hrest, hru, hcu]
    | some cu =>
      by_cases hA : urlAllowed ru
      · by_cases hB : urlAllowed cu
        · simp [hrest, hru, hcu, hA, hB]
        · simp [hrest, hru, hcu, hA, hB]
      · simp [hrest, hru, hcu, hA]

/-- C7 amended witness: a parseable but plain-HTTP `return_url` on a
non-local host is rejected with `ERR_URL_NOT_REGISTERED`. -/
theorem c7_amended_url_rejection_witness :
    (createOrderV2 demoParse "gw_9" "tok" "t0" emptyState httpReturnReq).2 =
      V2CreateOutcome.urlNotRegistered :=
  (c7_amended_url_rejection demoParse "gw_9" "tok" "t0" emptyState
      httpReturnReq (by decide)).1.mpr
    ⟨⟨"http:", "plain.example"⟩, ⟨"https:", "good.example"⟩, by decide,
      by decide, Or.inl (by decide)⟩

/-- C8: for a card payment-processing event carrying `cardDetails` on an
existing order, a card number whose last four digits are 0000 produces the
response transaction with status failed and failure_reason "Card declined by
issuer"; one ending 4242 produces a success transaction with no failure
reason; and when the processed order is not a v2 order (so no terminal v2
transition ever happens for it), no webhook dispatch is recorded. -/
theorem c8_card_decline_simulation (nowIso txnId : String) (s : GatewayState)
    (inp : ProcessPaymentInput) (cd : CardDetails)
    (hm : inp.paymentMethod = PaymentMethod.card)
    (hcd : inp.cardDetails = some cd)
    (hgate : (lookupA s.orders inp.orderId).isSome = true ∨
      (strStartsWith inp.orderId "gw_" = true ∧
        (lookupA s.v2orders inp.orderId).isSome = true)) :
    (cd.cardNumber.takeRight 4 = "0000" →
      (processPayment nowIso txnId s inp).2 =
        PayResp.txn ⟨txnId, inp.orderId, inp.amount, inp.paymentMethod,
          inp.bankAccountId, none, TxnStatus.failed,
          some "Card declined by issuer", nowIso⟩) ∧
    (cd.cardNumber.takeRight 4 = "4242" →
      (processPayment nowIso txnId s inp).2 =
        PayResp.txn ⟨txnId, inp.orderId, inp.amount, inp.paymentMethod,
          inp.bankAccountId, none, TxnStatus.success, none, nowIso⟩) ∧
    (lookupA s.v2orders inp.orderId = none →
      (processPayment nowIso txnId s inp).1.dispatches = s.dispatches) := by
  rw [processPayment_gate nowIso txnId s inp hgate]
  refine ⟨?_, ?_, ?_⟩
  · intro h0
    have hsim : simulateOutcome s inp =
        some (s, .failed, some "Card declined by issuer", none) := by
      unfold simulateOutcome
      simp [hm, hcd, h0]
    exact processPaymentBody_resp nowIso txnId s inp s _ _ _ hsim
  · intro h4
    have hne0 : ¬ (cd.cardNumber.takeRight 4 = "0000") := by
      rw [h4]
      decide
    have hne1 : ¬ (cd.cardNumber.takeRight 4 = "1111") := by
      rw [h4]
      decide
    have hsim : simulateOutcome s inp = some (s, .success, none, none) := by
      unfold simulateOutcome
      simp [hm, hcd, hne0, hne1]
    exact processPaymentBody_resp nowIso txnId s inp s _ _ _ hsim
  · intro hnone
    have hs := simulateOutcome_card_upi_some s inp (by rw [hm]; decide)
    obtain ⟨q, hq⟩ := Option.isSome_iff_exists.mp hs
    obtain ⟨s1, st, fr, bn⟩ := q
    exact processPaymentBody_no_v2 nowIso txnId s inp s1 st fr bn hq hnone

/-- C8 witness: the concrete 0000-card payment on an existing v2 order fails
with "Card declined by issuer". -/
theorem c8_card_decline_simulation_witness :
    (processPayment "t1" "TXN_8" freshState declineInput).2 =
      PayResp.txn ⟨"TXN_8", "gw_2", 10000, PaymentMethod.card, none, none,
        TxnStatus.failed, some "Card declined by issuer", "t1"⟩ :=
  (c8_card_decline_simulation "t1" "TXN_8" freshState declineInput
    ⟨"4000000000000000", "12/30", "123", "T"⟩ rfl rfl
    (Or.inr ⟨by decide, by decide⟩)).1 (by decide)

/-- C10: when the method-specific details are absent — a card payment
without `cardDetails`, a upi payment without `upiId`, or a netbanking
payment without `bankAccountId` (all optional in `processPaymentSchema`) —
no decline branch runs, so an existing order always yields a success
transaction with no failure reason (and no bank name). -/
theorem c10_missing_details_default_success (nowIso txnId : String)
    (s : GatewayState) (inp : ProcessPaymentInput)
    (hgate : (lookupA s.orders inp.orderId).isSome = true ∨
      (strStartsWith inp.orderId "gw_" = true ∧
        (lookupA s.v2orders inp.orderId).isSome = true))
    (hmiss : (inp.paymentMethod = PaymentMethod.card ∧ inp.cardDetails = none) ∨
      (inp.paymentMethod = PaymentMethod.upi ∧ inp.upiId = none) ∨
      (inp.paymentMethod = PaymentMethod.netbanking ∧
        inp.bankAccountId = none)) :
    (processPayment nowIso txnId s inp).2 =
      PayResp.txn ⟨txnId, inp.orderId, inp.amount, inp.paymentMethod,
        inp.bankAccountId, none, TxnStatus.success, none, nowIso⟩ := by
  rw [processPayment_gate nowIso txnId s inp hgate]
  have hsim : simulateOutcome s inp = some (s, .success, none, none) := by
    unfold simulateOutcome
    rcases hmiss with ⟨h1, h2⟩ | ⟨h1, h2⟩ | ⟨h1, h2⟩ <;> simp [h1, h2]
  exact processPaymentBody_resp nowIso txnId s inp s _ _ _ hsim

/-- C10 witness: a upi payment with `upiId` omitted on an existing v2 order
yields a success transaction with no failure reason. -/
theorem c10_missing_details_default_success_witness :
    (processPayment "t1" "TXN_9" freshState upiNoIdInput).2 =
      PayResp.txn ⟨"TXN_9", "gw_2", 10000, PaymentMethod.upi, none, none,
        TxnStatus.success, none, "t1"⟩ :=
  c10_missing_details_default_success "t1" "TXN_9" freshState upiNoIdInput
    (Or.inr ⟨by decide, by decide⟩) (Or.inr (Or.inl ⟨rfl, rfl⟩))

end OwnPay
